import Mathlib

/-!
Verification of the Gallery-Project backend (Django REST) against its
natural-language specification, via a shallow embedding of the relevant
source code in Lean.

Conventions of the embedding:
* Database tables are lists of records; filesystem state is a set of
  directory / file paths.  A '/'-separated path string such as
  `media/<username>/image/<gallery_name>` is modelled as its list of
  components `["media", username, "image", galleryName]`.
* Serializer `validate_*` methods and views raising errors are modelled
  with `Except String`; an uncaught Python exception (Http404,
  FileExistsError, IntegrityError, ...) is an `Except.error` carrying the
  exception name, kept distinct from structured validation errors by the
  message text or by a dedicated outcome type.
* `timezone.now()` readings are passed explicitly as `Timestamp` values,
  one per loop iteration that reads the clock.
-/

deriving instance DecidableEq for Except

namespace GalleryProject

/-! ## Constants (gallery/constants.py) -/

/-- MAX_LIMIT['max_limit'] = 10 -/
def maxLimit : Nat := 10

/-- MAX_SIZE_IMAGE['max_size'] = 2 * 1024 * 1024 -/
def maxSizeImage : Nat := 2 * 1024 * 1024

/-- MAX_SIZE_VIDEO['max_size'] = 10 * 1024 * 1024 -/
def maxSizeVideo : Nat := 10 * 1024 * 1024

/-- VIDEO_FORMAT = '.mp4' -/
def videoFormat : String := ".mp4"

/-- MIN_LENGTH['gallery_name'] = 5 -/
def galleryNameMinLength : Nat := 5

/-- MAX_LENGTH['gallery_name'] = 20 -/
def galleryNameMaxLength : Nat := 20

/-- A filesystem path, as its list of '/'-separated components. -/
abbrev Path := List String

/-- IMAGE_GALLERY_PATH = 'media/{username}/image/{gallery_name}' as components. -/
def imageGalleryPath (username galleryName : String) : Path :=
  ["media", username, "image", galleryName]

/-- VIDEO_GALLERY_PATH = 'media/{username}/video/{gallery_name}' as components. -/
def videoGalleryPath (username galleryName : String) : Path :=
  ["media", username, "video", galleryName]

/-! ## Timestamps and uploaded files -/

/-- The fields of a `django.utils.timezone.now()` reading that the filename
format uses. -/
structure Timestamp where
  day : Nat
  month : Nat
  year : Nat
  hour : Nat
  minute : Nat
  second : Nat
  microsecond : Nat
deriving DecidableEq, Repr

/-- An uploaded file as the serializers see it: a client-supplied name and a
byte size. -/
structure UploadFile where
  name : String
  size : Nat
deriving DecidableEq, Repr

/-- `os.path.splitext` for a basename (no directory separators): split at the
last dot, provided some character before that dot is not itself a dot
(so `.hidden` has no extension); the dot stays with the extension. -/
def splitext (p : String) : String × String :=
  let cs := p.toList
  match ((List.range cs.length).filter (fun i => cs.getD i ' ' = '.')).getLast? with
  | none => (p, "")
  | some d =>
    if (cs.take d).any (fun c => c ≠ '.') then
      (String.mk (cs.take d), String.mk (cs.drop d))
    else
      (p, "")

/-- FILENAME_FORMAT (= VIDEO_FILENAME_FORMAT):
`"{username}-{gallery_name}-{day}-{month}-{year}-{hour}-{minute}-{second}-{microsecond}{extension}"`. -/
def filenameFormat (username galleryName : String) (t : Timestamp)
    (extension : String) : String :=
  username ++ "-" ++ galleryName ++ "-" ++ toString t.day ++ "-" ++
    toString t.month ++ "-" ++ toString t.year ++ "-" ++ toString t.hour ++
    "-" ++ toString t.minute ++ "-" ++ toString t.second ++ "-" ++
    toString t.microsecond ++ extension

/-- Python `repr` of a string containing no quotes or escapes: wrap in
single quotes (`\x27`). -/
def pyRepr (s : String) : String := "\x27" ++ s ++ "\x27"

/-- Python `str()` of a list of plain strings: `['a', 'b']`. -/
def pyStrOfList (xs : List String) : String :=
  "[" ++ String.intercalate ", " (xs.map pyRepr) ++ "]"

/-- `generate_unique_image(user, image_gallery, validated_data)`
(gallery/utils.py): one `timezone.now()` reading, then one FILENAME_FORMAT
name per file of `validated_data['image']`, keeping each file's own
extension.  Returns the whole list. -/
def generate_unique_image (username galleryName : String) (t : Timestamp)
    (files : List UploadFile) : List String :=
  files.map (fun f => filenameFormat username galleryName t (splitext f.name).2)

/-- `generate_unique_video_filename` (gallery/utils.py): same per-file names,
but returns `''.join(unique_filenames)` — the concatenation. -/
def generate_unique_video_filename (username galleryName : String)
    (t : Timestamp) (files : List UploadFile) : String :=
  String.join (files.map
    (fun f => filenameFormat username galleryName t (splitext f.name).2))

/-- The names `ImageCreateSerializer.create` actually stores: for the i-th
file of the batch it calls `generate_unique_image` (reading the clock, here
`times[i]`) over the *whole* batch and stores `str(image_name)` — the Python
`str()` of the full list — as that file's name. -/
def imageCreateStoredNames (username galleryName : String)
    (files : List UploadFile) (times : List Timestamp) : List String :=
  (files.zip times).map
    (fun ft => pyStrOfList (generate_unique_image username galleryName ft.2 files))

/-- The names `VideoCreateSerializer.create` actually stores: for the i-th
file it stores `str(generate_unique_video_filename(...))`, i.e. the
concatenation of the names generated for the whole batch at clock reading
`times[i]`. -/
def videoCreateStoredNames (username galleryName : String)
    (files : List UploadFile) (times : List Timestamp) : List String :=
  (files.zip times).map
    (fun ft => generate_unique_video_filename username galleryName ft.2 files)

/-! ## Data model (account/models.py, gallery/models.py) -/

/-- `account.models.User` (the fields the specified behaviour touches;
`password` stores the hash, `token` mirrors the last-issued access token). -/
structure User where
  id : Nat := 0
  first_name : String := ""
  last_name : String := ""
  username : String := ""
  email : String := ""
  contact : String := ""
  password : String := ""
  token : String := ""
deriving DecidableEq, Repr

/-- `gallery.models.ImageGallery`: `user` foreign key and `gallery_name`. -/
structure ImageGallery where
  id : Nat := 0
  userId : Nat := 0
  galleryName : String := ""
deriving DecidableEq, Repr

/-- `gallery.models.Image`: `image_gallery` foreign key (CASCADE) and the
stored file name. -/
structure Image where
  id : Nat := 0
  imageGalleryId : Nat := 0
  name : String := ""
deriving DecidableEq, Repr

/-- `gallery.models.VideoGallery`. -/
structure VideoGallery where
  id : Nat := 0
  userId : Nat := 0
  galleryName : String := ""
deriving DecidableEq, Repr

/-- `gallery.models.Video`: `video_gallery` foreign key (CASCADE). -/
structure Video where
  id : Nat := 0
  videoGalleryId : Nat := 0
  name : String := ""
deriving DecidableEq, Repr

/-- The relational store: one list per table, plus the auto-increment
counters (Django auto primary keys start at 1, so counters default to 1). -/
structure DB where
  users : List User := []
  imageGalleries : List ImageGallery := []
  images : List Image := []
  videoGalleries : List VideoGallery := []
  videos : List Video := []
  nextUserId : Nat := 1
  nextImageGalleryId : Nat := 1
  nextImageId : Nat := 1
  nextVideoGalleryId : Nat := 1
  nextVideoId : Nat := 1
deriving DecidableEq, Repr

/-- Filesystem state: the sets of existing directory and file paths. -/
structure FS where
  dirs : List Path := []
  files : List Path := []
deriving DecidableEq, Repr

/-- Number of `Image` rows of a gallery
(`gallery.image_gallery_set.count()`). -/
def countImages (db : DB) (galleryId : Nat) : Nat :=
  (db.images.filter (fun i => i.imageGalleryId == galleryId)).length

/-- Number of `Video` rows of a gallery
(`gallery.video_gallery_set.count()`). -/
def countVideos (db : DB) (galleryId : Nat) : Nat :=
  (db.videos.filter (fun v => v.videoGalleryId == galleryId)).length

/-! ## Filesystem primitives (os / shutil as used by the app) -/

/-- `os.makedirs(path, exist_ok=False)`: raises FileExistsError if `path`
already exists, otherwise adds it. -/
def makedirs (fs : FS) (p : Path) : Except String FS :=
  if fs.dirs.contains p then .error "FileExistsError"
  else .ok { fs with dirs := p :: fs.dirs }

/-- Relabel one path under a directory rename `old -> new`: paths at or
below `old` get their `old` components replaced by `new`. -/
def renamePath (old new p : Path) : Path :=
  if old.isPrefixOf p then new ++ p.drop old.length else p

/-- `os.rename(old, new)`: raises FileNotFoundError if `old` is absent,
otherwise moves the whole subtree. -/
def os_rename (fs : FS) (old new : Path) : Except String FS :=
  if fs.dirs.contains old then
    .ok { dirs := fs.dirs.map (renamePath old new),
          files := fs.files.map (renamePath old new) }
  else .error "FileNotFoundError"

/-- `shutil.rmtree(path)`: remove the directory and everything below it. -/
def rmtree (fs : FS) (p : Path) : FS :=
  { dirs := fs.dirs.filter (fun d => !p.isPrefixOf d),
    files := fs.files.filter (fun f => !p.isPrefixOf f) }

/-! ## Error messages (gallery/messages.py, account/messages.py) -/

/-- VALIDATION['gallery_name']['exists'] -/
def msgGalleryNameExists : String := "Gallery with this name already exists"

/-- VALIDATION['video_gallery_name']['exists'] -/
def msgVideoGalleryNameExists : String :=
  "Video Gallery with this name already exists"

/-- VALIDATION['video_gallery_name']['exists_while_updating'] -/
def msgVideoGalleryNameExistsWhileUpdating : String :=
  "A video gallery with this name already exists for the current user."

/-- VALIDATION['image_gallery_set']['max_limit'] -/
def msgImageMaxLimit : String := "Cannot upload more than 10 images."

/-- VALIDATION['video_gallery_set']['max_limit'] -/
def msgVideoMaxLimit : String := "Cannot upload more than 10 videos."

/-- VALIDATION['image']['max_size'] -/
def msgImageMaxSize : String := "Make sure the image size is less than 2 Mb"

/-- VALIDATION['video']['format'] -/
def msgVideoFormat : String := "Only mp4 files are allowed."

/-- VALIDATION['video']['max_size'] -/
def msgVideoMaxSize : String := "File size should be less than 50MB."

/-- SIGNIN_VALIDATION_ERROR['invalid credentials'] -/
def msgInvalidCredentials : String := "Invalid Credentials"

/-- The character-field length check every gallery_name field carries
(`min_length=5, max_length=20`). -/
def galleryNameLengthOk (v : String) : Bool :=
  galleryNameMinLength ≤ v.length && v.length ≤ galleryNameMaxLength

/-! ## Gallery serializers (gallery/serializers.py) -/

namespace ImageGalleryCreateSerializer

/-- `validate_gallery_name`: error iff the *requesting user* already has an
image gallery with this name
(`ImageGallery.objects.filter(user=user, gallery_name=value).exists()`). -/
def validate_gallery_name (db : DB) (userId : Nat) (value : String) :
    Except String String :=
  if db.imageGalleries.any (fun g => g.userId == userId && g.galleryName == value)
  then .error msgGalleryNameExists
  else .ok value

/-- `create`: insert the row first (`ImageGallery.objects.create`), then
`os.makedirs(path, exist_ok=False)`; a makedirs failure propagates but the
row stays. -/
def create (db : DB) (fs : FS) (userId : Nat) (username galleryName : String) :
    Except String ImageGallery × DB × FS :=
  let g : ImageGallery :=
    { id := db.nextImageGalleryId, userId := userId, galleryName := galleryName }
  let db2 := { db with imageGalleries := db.imageGalleries ++ [g],
                       nextImageGalleryId := db.nextImageGalleryId + 1 }
  match makedirs fs (imageGalleryPath username galleryName) with
  | .error e => (.error e, db2, fs)
  | .ok fs2 => (.ok g, db2, fs2)

end ImageGalleryCreateSerializer

namespace ImageGalleryUpdateSerializer

/-- `validate_gallery_name`: same per-owner existence check as on create. -/
def validate_gallery_name (db : DB) (userId : Nat) (value : String) :
    Except String String :=
  if db.imageGalleries.any (fun g => g.userId == userId && g.galleryName == value)
  then .error msgGalleryNameExists
  else .ok value

/-- `update`: update the row (`filter(id=instance.id).update(...)`), then
`os.rename(old_path, new_path)`; a rename failure propagates but the row
stays updated. -/
def update (db : DB) (fs : FS) (instGallery : ImageGallery) (username newName : String) :
    Except String ImageGallery × DB × FS :=
  let db2 := { db with imageGalleries := (db.imageGalleries.map
      (fun g => if g.id == instGallery.id then { g with galleryName := newName } else g)) }
  let oldPath := imageGalleryPath username instGallery.galleryName
  let newPath := imageGalleryPath username newName
  match os_rename fs oldPath newPath with
  | .error e => (.error e, db2, fs)
  | .ok fs2 => (.ok { instGallery with galleryName := newName }, db2, fs2)

end ImageGalleryUpdateSerializer

namespace VideoGalleryCreateSerializer

/-- `validate_gallery_name` is a `@staticmethod` that filters **without** an
owner: `VideoGallery.objects.filter(gallery_name=value).exists()` — the
check is global across all users. -/
def validate_gallery_name (db : DB) (value : String) : Except String String :=
  if db.videoGalleries.any (fun g => g.galleryName == value)
  then .error msgVideoGalleryNameExists
  else .ok value

/-- `create`: insert the row, then `os.makedirs(path, exist_ok=False)`. -/
def create (db : DB) (fs : FS) (userId : Nat) (username galleryName : String) :
    Except String VideoGallery × DB × FS :=
  let g : VideoGallery :=
    { id := db.nextVideoGalleryId, userId := userId, galleryName := galleryName }
  let db2 := { db with videoGalleries := db.videoGalleries ++ [g],
                       nextVideoGalleryId := db.nextVideoGalleryId + 1 }
  match makedirs fs (videoGalleryPath username galleryName) with
  | .error e => (.error e, db2, fs)
  | .ok fs2 => (.ok g, db2, fs2)

end VideoGalleryCreateSerializer

namespace VideoGalleryUpdateSerializer

/-- `validate_gallery_name`: per-owner existence check
(`VideoGallery.objects.filter(user=user, gallery_name=value).exists()`). -/
def validate_gallery_name (db : DB) (userId : Nat) (value : String) :
    Except String String :=
  if db.videoGalleries.any (fun g => g.userId == userId && g.galleryName == value)
  then .error msgVideoGalleryNameExistsWhileUpdating
  else .ok value

/-- `update`: update the row, then `os.rename(old_path, new_path)`. -/
def update (db : DB) (fs : FS) (instGallery : VideoGallery) (username newName : String) :
    Except String VideoGallery × DB × FS :=
  let db2 := { db with videoGalleries := (db.videoGalleries.map
      (fun g => if g.id == instGallery.id then { g with galleryName := newName } else g)) }
  let oldPath := videoGalleryPath username instGallery.galleryName
  let newPath := videoGalleryPath username newName
  match os_rename fs oldPath newPath with
  | .error e => (.error e, db2, fs)
  | .ok fs2 => (.ok { instGallery with galleryName := newName }, db2, fs2)

end VideoGalleryUpdateSerializer

namespace ImageCreateSerializer

/-- `validate_image` (field-level): loops over the batch but **returns inside
the loop body**, so only the first file's size is ever compared against
MAX_SIZE_IMAGE; an empty list falls through to Python's implicit
`return None`. -/
def validate_image (value : List UploadFile) :
    Except String (Option (List UploadFile)) :=
  match value with
  | [] => .ok none
  | f :: _ =>
    if f.size > maxSizeImage then .error msgImageMaxSize
    else .ok (some value)

/-- Object-level `validate`: when `image_gallery_id` is truthy (non-zero),
`get_object_or_404(ImageGallery, id=..., user=user)` then reject when
`len(images) + gallery.image_gallery_set.count() > MAX_LIMIT`. -/
def validate (db : DB) (userId imageGalleryId : Nat) (files : List UploadFile) :
    Except String Unit :=
  if imageGalleryId ≠ 0 then
    match db.imageGalleries.find?
        (fun g => g.id == imageGalleryId && g.userId == userId) with
    | none => .error "Http404"
    | some g =>
      if files.length + countImages db g.id > maxLimit
      then .error msgImageMaxLimit
      else .ok ()
  else .ok ()

/-- `create`: `get_object_or_404` again, then for each file store
`str(generate_unique_image(...))` as its name and `bulk_create` the rows. -/
def create (db : DB) (userId : Nat) (username : String) (imageGalleryId : Nat)
    (files : List UploadFile) (times : List Timestamp) :
    Except String (List Image) × DB :=
  match db.imageGalleries.find?
      (fun g => g.id == imageGalleryId && g.userId == userId) with
  | none => (.error "Http404", db)
  | some g =>
    let names := imageCreateStoredNames username g.galleryName files times
    let rows := (List.range names.length).zip names |>.map
      (fun p => { id := db.nextImageId + p.1, imageGalleryId := g.id,
                  name := p.2 : Image })
    (.ok rows, { db with images := db.images ++ rows,
                         nextImageId := db.nextImageId + rows.length })

end ImageCreateSerializer

namespace VideoCreateSerializer

/-- One iteration of the `validate_video` loop: first the `.mp4` extension
check (`ext.lower() != VIDEO_FORMAT`, the lowering modelled per character),
then the size cap, for each file in order. -/
def checkVideoFiles : List UploadFile → Except String Unit
  | [] => .ok ()
  | f :: rest =>
    if (splitext f.name).2.toList.map Char.toLower ≠ videoFormat.toList then
      .error msgVideoFormat
    else if f.size > maxSizeVideo then .error msgVideoMaxSize
    else checkVideoFiles rest

/-- `validate_video` (field-level): checks **every** file of the batch for
the `.mp4` extension and the size cap, in batch order. -/
def validate_video (value : List UploadFile) : Except String (List UploadFile) :=
  match checkVideoFiles value with
  | .error e => .error e
  | .ok _ => .ok value

/-- Object-level `validate`: mirror of the image one over VideoGallery /
Video. -/
def validate (db : DB) (userId videoGalleryId : Nat) (files : List UploadFile) :
    Except String Unit :=
  if videoGalleryId ≠ 0 then
    match db.videoGalleries.find?
        (fun g => g.id == videoGalleryId && g.userId == userId) with
    | none => .error "Http404"
    | some g =>
      if files.length + countVideos db g.id > maxLimit
      then .error msgVideoMaxLimit
      else .ok ()
  else .ok ()

/-- `create`: per file, store `str(generate_unique_video_filename(...))` (the
join of the whole batch's names) and `bulk_create` the rows. -/
def create (db : DB) (userId : Nat) (username : String) (videoGalleryId : Nat)
    (files : List UploadFile) (times : List Timestamp) :
    Except String (List Video) × DB :=
  match db.videoGalleries.find?
      (fun g => g.id == videoGalleryId && g.userId == userId) with
  | none => (.error "Http404", db)
  | some g =>
    let names := videoCreateStoredNames username g.galleryName files times
    let rows := (List.range names.length).zip names |>.map
      (fun p => { id := db.nextVideoId + p.1, videoGalleryId := g.id,
                  name := p.2 : Video })
    (.ok rows, { db with videos := db.videos ++ rows,
                         nextVideoId := db.nextVideoId + rows.length })

end VideoCreateSerializer

/-! ## Gallery views (gallery/views.py): serializer pipelines per request -/

/-- `ImageGalleryViewSet.create`: run `is_valid` (field length check and
`validate_gallery_name`), then `serializer.create`. -/
def imageGalleryCreateView (db : DB) (fs : FS) (userId : Nat)
    (username galleryName : String) : Except String ImageGallery × DB × FS :=
  if !galleryNameLengthOk galleryName then
    (.error "gallery_name length out of bounds", db, fs)
  else
    match ImageGalleryCreateSerializer.validate_gallery_name db userId galleryName with
    | .error e => (.error e, db, fs)
    | .ok v => ImageGalleryCreateSerializer.create db fs userId username v

/-- `VideoGalleryViewSet.create`: same shape, but with the serializer whose
name check is global. -/
def videoGalleryCreateView (db : DB) (fs : FS) (userId : Nat)
    (username galleryName : String) : Except String VideoGallery × DB × FS :=
  if !galleryNameLengthOk galleryName then
    (.error "gallery_name length out of bounds", db, fs)
  else
    match VideoGalleryCreateSerializer.validate_gallery_name db galleryName with
    | .error e => (.error e, db, fs)
    | .ok v => VideoGalleryCreateSerializer.create db fs userId username v

/-- `ImageGalleryViewSet.update`: `get_object` restricted to the requesting
user's queryset, `is_valid`, then `serializer.update`. -/
def imageGalleryUpdateView (db : DB) (fs : FS) (userId : Nat)
    (username : String) (galleryId : Nat) (newName : String) :
    Except String ImageGallery × DB × FS :=
  match db.imageGalleries.find?
      (fun g => g.id == galleryId && g.userId == userId) with
  | none => (.error "Http404", db, fs)
  | some instGallery =>
    if !galleryNameLengthOk newName then
      (.error "gallery_name length out of bounds", db, fs)
    else
      match ImageGalleryUpdateSerializer.validate_gallery_name db userId newName with
      | .error e => (.error e, db, fs)
      | .ok v => ImageGalleryUpdateSerializer.update db fs instGallery username v

/-- `VideoGalleryViewSet.update`. -/
def videoGalleryUpdateView (db : DB) (fs : FS) (userId : Nat)
    (username : String) (galleryId : Nat) (newName : String) :
    Except String VideoGallery × DB × FS :=
  match db.videoGalleries.find?
      (fun g => g.id == galleryId && g.userId == userId) with
  | none => (.error "Http404", db, fs)
  | some instGallery =>
    if !galleryNameLengthOk newName then
      (.error "gallery_name length out of bounds", db, fs)
    else
      match VideoGalleryUpdateSerializer.validate_gallery_name db userId newName with
      | .error e => (.error e, db, fs)
      | .ok v => VideoGalleryUpdateSerializer.update db fs instGallery username v

/-- `ImageGalleryViewSet.destroy`: `get_object`, remove the directory tree if
it exists (silently skip otherwise), then `instance.delete()` — which
CASCADE-deletes the child `Image` rows. -/
def imageGalleryDestroyView (db : DB) (fs : FS) (userId : Nat)
    (username : String) (galleryId : Nat) : Except String Unit × DB × FS :=
  match db.imageGalleries.find?
      (fun g => g.id == galleryId && g.userId == userId) with
  | none => (.error "Http404", db, fs)
  | some instGallery =>
    let folderPath := imageGalleryPath username instGallery.galleryName
    let fs2 := if fs.dirs.contains folderPath then rmtree fs folderPath else fs
    let db2 := { db with
      imageGalleries := db.imageGalleries.filter (fun g => g.id != instGallery.id),
      images := db.images.filter (fun i => i.imageGalleryId != instGallery.id) }
    (.ok (), db2, fs2)

/-- `ImageViewSet.retrieve`: `get_object` over the queryset
`Image.objects.filter(image_gallery__user=user)`, keyed by pk; a miss is an
Http404. -/
def imageRetrieveView (db : DB) (userId imageId : Nat) : Except String Image :=
  match db.images.find? (fun i => i.id == imageId &&
      db.imageGalleries.any (fun g => g.id == i.imageGalleryId && g.userId == userId)) with
  | none => .error "Http404"
  | some i => .ok i

/-- `ImageViewSet.create`: `is_valid` runs the field-level `validate_image`
first, then the object-level `validate`; only then `serializer.create`.
An empty batch makes `validate_image` return `None`, so the later
`len(None)` in `validate` raises a TypeError. -/
def imageUploadView (db : DB) (userId : Nat) (username : String)
    (imageGalleryId : Nat) (files : List UploadFile) (times : List Timestamp) :
    Except String (List Image) × DB :=
  match ImageCreateSerializer.validate_image files with
  | .error e => (.error e, db)
  | .ok none => (.error "TypeError", db)
  | .ok (some v) =>
    match ImageCreateSerializer.validate db userId imageGalleryId v with
    | .error e => (.error e, db)
    | .ok _ => ImageCreateSerializer.create db userId username imageGalleryId v times

/-- `VideoViewSet.create`. -/
def videoUploadView (db : DB) (userId : Nat) (username : String)
    (videoGalleryId : Nat) (files : List UploadFile) (times : List Timestamp) :
    Except String (List Video) × DB :=
  match VideoCreateSerializer.validate_video files with
  | .error e => (.error e, db)
  | .ok v =>
    match VideoCreateSerializer.validate db userId videoGalleryId v with
    | .error e => (.error e, db)
    | .ok _ => VideoCreateSerializer.create db userId username videoGalleryId v times

/-! ## Account regexes (account/constants.py REGEX) -/

/-- The special-character class of REGEX["USERNAME"]:
`!@#$%^&*()_+|~=`\x60\x7b\x7d[]:";\x27<>?,./` (backtick, braces and the
apostrophe written via their codes). -/
def usernameSpecialChars : List Char :=
  ['!', '@', '#', '$', '%', '^', '&', '*', '(', ')', '_', '+', '|', '~',
   '=', '\x60', '\x7b', '\x7d', '[', ']', ':', '"', ';', '\x27', '<', '>',
   '?', ',', '.', '/']

/-- REGEX["USERNAME"]: at least one special character, at least one
alphanumeric, every character from the allowed class, length at least 8
(the serializers additionally bound the length by 8..16). -/
def usernameRegexMatch (s : String) : Bool :=
  8 ≤ s.length &&
  s.toList.all (fun c => c.isAlphanum || usernameSpecialChars.contains c) &&
  s.toList.any (fun c => usernameSpecialChars.contains c) &&
  s.toList.any (fun c => c.isAlphanum)

/-- The special-character class of REGEX["PASSWORD"]: `!@#$%^&*()_+=-`. -/
def passwordSpecialChars : List Char :=
  ['!', '@', '#', '$', '%', '^', '&', '*', '(', ')', '_', '+', '=', '-']

/-- REGEX["PASSWORD"]: at least one digit, lowercase, uppercase and special
character, every character allowed, length 8..16. -/
def passwordRegexMatch (s : String) : Bool :=
  8 ≤ s.length && s.length ≤ 16 &&
  s.toList.all (fun c => c.isAlphanum || passwordSpecialChars.contains c) &&
  s.toList.any (fun c => c.isDigit) &&
  s.toList.any (fun c => c.isLower) &&
  s.toList.any (fun c => c.isUpper) &&
  s.toList.any (fun c => passwordSpecialChars.contains c)

/-- REGEX["first_name"] = REGEX["last_name"] = `^[a-zA-Z]+$`. -/
def alphaRegexMatch (s : String) : Bool :=
  !s.isEmpty && s.toList.all (fun c => c.isAlpha)

/-- REGEX["contact"] = `^\d+$`. -/
def digitsRegexMatch (s : String) : Bool :=
  !s.isEmpty && s.toList.all (fun c => c.isDigit)

/-- Modelled from the spec: the framework `EmailField` validator (framework
code, not in this repository) — modelled as requiring exactly one `@` with a
non-empty local part and a domain part containing a dot. -/
def emailFieldValid (s : String) : Bool :=
  let cs := s.toList
  let localPart := cs.takeWhile (fun c => c ≠ '@')
  match cs.dropWhile (fun c => c ≠ '@') with
  | '@' :: domain =>
    !localPart.isEmpty && !domain.isEmpty && domain.contains '.' &&
      !domain.contains '@'
  | _ => false

/-- Modelled from the spec: the framework password hasher
(`make_password` / `set_password`) — a one-way hash, modelled as an
injective tagging so that the raw password is checkable but the claims do
not depend on the hash's internals. -/
def make_password (raw : String) : String := "pbkdf2-sha256$" ++ raw

/-- Modelled from the spec: the framework `check_password` — verifies a raw
password against a stored hash. -/
def check_password (raw stored : String) : Bool := stored == make_password raw

/-! ## Signup (account/serializers.py SignupSerializer) -/

/-- A signup request body. -/
structure SignupData where
  first_name : String := ""
  last_name : String := ""
  username : String := ""
  email : String := ""
  contact : String := ""
  password : String := ""
deriving DecidableEq, Repr

/-- How a signup request ends: a created account, a structured per-field
validation error (HTTP 400), or an uncaught exception raised inside
`create` (FileExistsError from `os.makedirs`, IntegrityError from the DB
unique constraints at `save()`). -/
inductive SignupOutcome where
  | success (u : User)
  | validationError
  | fileExistsError
  | integrityError
deriving DecidableEq, Repr

namespace SignupSerializer

/-- `is_valid`: the declared field bounds (account/constants.py
MIN_LENGTH/MAX_LENGTH) plus the `validate_<field>` methods.  Note: the
explicitly declared `username` field carries **no** uniqueness validator —
existence of the username is nowhere checked during signup validation. -/
def fieldsValid (d : SignupData) : Bool :=
  3 ≤ d.first_name.length && d.first_name.length ≤ 30 &&
    alphaRegexMatch d.first_name &&
  3 ≤ d.last_name.length && d.last_name.length ≤ 30 &&
    alphaRegexMatch d.last_name &&
  8 ≤ d.username.length && d.username.length ≤ 16 &&
    usernameRegexMatch d.username &&
    d.username.toList.any (fun c => c.isAlpha) &&
  emailFieldValid d.email &&
  d.contact.length == 10 && digitsRegexMatch d.contact &&
  8 ≤ d.password.length && d.password.length ≤ 16 &&
    passwordRegexMatch d.password

/-- `create`: hash the password, `os.makedirs(os.path.join('media/',
username))` (no `exist_ok` — raises FileExistsError), then `user.save()`
(the DB `unique=True` on username/email raises IntegrityError on a
duplicate).  Neither exception is caught. -/
def create (db : DB) (fs : FS) (d : SignupData) : SignupOutcome × DB × FS :=
  let dir : Path := ["media", d.username]
  if fs.dirs.contains dir then (.fileExistsError, db, fs)
  else
    let fs2 := { fs with dirs := dir :: fs.dirs }
    if db.users.any (fun u => u.username == d.username) then
      (.integrityError, db, fs2)
    else if db.users.any (fun u => u.email == d.email) then
      (.integrityError, db, fs2)
    else
      let u : User :=
        { id := db.nextUserId, first_name := d.first_name,
          last_name := d.last_name, username := d.username, email := d.email,
          contact := d.contact, password := make_password d.password }
      (.success u,
       { db with users := db.users ++ [u], nextUserId := db.nextUserId + 1 },
       fs2)

end SignupSerializer

/-- `SignupView.create`: `is_valid` then `serializer.create`. -/
def signupView (db : DB) (fs : FS) (d : SignupData) : SignupOutcome × DB × FS :=
  if SignupSerializer.fieldsValid d then SignupSerializer.create db fs d
  else (.validationError, db, fs)

/-! ## Signin (account/serializers.py SigninSerializer) -/

/-- Modelled from the spec: `django.contrib.auth.authenticate` (framework
code) — returns the user whose username matches and whose stored hash
verifies the raw password, `None` otherwise. -/
def authenticate (users : List User) (username password : String) : Option User :=
  users.find? (fun u => u.username == username && check_password password u.password)

namespace SigninSerializer

/-- The two field-level checks (`validate_username` / `validate_password` —
plain regex matches) together with the declared length bounds. -/
def fieldsValid (username password : String) : Bool :=
  8 ≤ username.length && username.length ≤ 16 && usernameRegexMatch username &&
  8 ≤ password.length && password.length ≤ 16 && passwordRegexMatch password

/-- Object-level `validate`: `authenticate(...)`; the single error raised on
any authentication failure is SIGNIN_VALIDATION_ERROR['invalid credentials'],
whatever its cause. -/
def validate (users : List User) (username password : String) :
    Except String User :=
  match authenticate users username password with
  | none => .error msgInvalidCredentials
  | some u => .ok u

end SigninSerializer

/-- `SigninView.create` up to and including `is_valid`: field checks then
the object-level `validate`.  Its `Except` value is what distinguishes the
error responses the caller can observe. -/
def signinValidation (users : List User) (username password : String) :
    Except String User :=
  if SigninSerializer.fieldsValid username password then
    SigninSerializer.validate users username password
  else .error "field validation failed"

/-! ## Sign-out and token refresh -/

/-- A refresh token after a successful signature check: the claims the
library reads (user id, expiry, the `jti` identifier that the denylist
stores). -/
structure RefreshToken where
  userId : Nat := 0
  exp : Nat := 0
  jti : String := ""
deriving DecidableEq, Repr

namespace SignOutSerializer

/-- `validate`: `RefreshToken(attrs['refresh'])` re-verifies the token —
expiry and, with the blacklist app installed, the denylist; a failure is
re-raised as a validation error. -/
def validate (blacklist : List String) (t : RefreshToken) (now : Nat) :
    Except String RefreshToken :=
  if t.exp ≤ now then .error "Token is invalid or expired"
  else if blacklist.contains t.jti then .error "Token is blacklisted"
  else .ok t

/-- `create`: `refresh_token.blacklist()` — record the token's `jti` on the
denylist. -/
def create (blacklist : List String) (t : RefreshToken) : List String :=
  t.jti :: blacklist

end SignOutSerializer

/-- `SignOutView.create`: validate then blacklist; on validation failure the
denylist is untouched. -/
def signOutView (blacklist : List String) (t : RefreshToken) (now : Nat) :
    Except String Unit × List String :=
  match SignOutSerializer.validate blacklist t now with
  | .error e => (.error e, blacklist)
  | .ok t' => (.ok (), SignOutSerializer.create blacklist t')

/-- Modelled from the spec: the token-refresh endpoint (library code, not in
this repository) — "validity is checked by signature and expiry ... except
that revoked refresh tokens must be tracked (a denylist) so that a revoked
token fails validation even before expiry".  The denylist is consulted on
every refresh. -/
def tokenRefreshView (blacklist : List String) (t : RefreshToken) (now : Nat) :
    Except String String :=
  if blacklist.contains t.jti then .error "Token is blacklisted"
  else if t.exp ≤ now then .error "Token is invalid or expired"
  else .ok ("access-token-for-user-" ++ toString t.userId)

/-- The denylist evolution under any further sign-out requests. -/
def applySignOuts (blacklist : List String) :
    List (RefreshToken × Nat) → List String
  | [] => blacklist
  | (t, now) :: rest => applySignOuts (signOutView blacklist t now).2 rest

/-! ## Concrete sample states used by witnesses -/

/-- A store holding one image gallery (id 1) with 4 images and one video
gallery (id 1) with 4 videos, both owned by user 1. -/
def overLimitDb : DB :=
  { imageGalleries := [{ id := 1, userId := 1, galleryName := "beachtrip" }],
    videoGalleries := [{ id := 1, userId := 1, galleryName := "roadtrips" }],
    images := [{ id := 1, imageGalleryId := 1 }, { id := 2, imageGalleryId := 1 },
               { id := 3, imageGalleryId := 1 }, { id := 4, imageGalleryId := 1 }],
    videos := [{ id := 1, videoGalleryId := 1 }, { id := 2, videoGalleryId := 1 },
               { id := 3, videoGalleryId := 1 }, { id := 4, videoGalleryId := 1 }],
    nextImageId := 5, nextVideoId := 5,
    nextImageGalleryId := 2, nextVideoGalleryId := 2 }

/-- A batch of 7 small image uploads. -/
def sevenImages : List UploadFile :=
  [⟨"p1.jpg", 100⟩, ⟨"p2.jpg", 100⟩, ⟨"p3.jpg", 100⟩, ⟨"p4.jpg", 100⟩,
   ⟨"p5.jpg", 100⟩, ⟨"p6.jpg", 100⟩, ⟨"p7.jpg", 100⟩]

/-- A batch of 7 small mp4 uploads. -/
def sevenVideos : List UploadFile :=
  [⟨"v1.mp4", 100⟩, ⟨"v2.mp4", 100⟩, ⟨"v3.mp4", 100⟩, ⟨"v4.mp4", 100⟩,
   ⟨"v5.mp4", 100⟩, ⟨"v6.mp4", 100⟩, ⟨"v7.mp4", 100⟩]

/-- A filesystem already holding the directories of the galleries
`beachtrip` (image) and `roadtrips` (video) of user `alicepics`. -/
def bothDirsFs : FS :=
  { dirs := [imageGalleryPath "alicepics" "beachtrip",
             videoGalleryPath "alicepics" "roadtrips"] }

/-- A user table with the single account `alice@123`. -/
def signinUsers : List User :=
  [{ id := 1, username := "alice@123", email := "alice@example.com",
     password := make_password "Secret1!" }]

/-- A store already holding the account `alice@123`. -/
def dupUserDb : DB := { users := signinUsers, nextUserId := 2 }

/-- The filesystem area `media/alice@123` provisioned at that account's
signup. -/
def dupUserFs : FS := { dirs := [["media", "alice@123"]] }

/-- A well-formed signup payload re-using the taken username `alice@123`. -/
def dupSignupData : SignupData :=
  { first_name := "Alice", last_name := "Smith", username := "alice@123",
    email := "alice2@example.com", contact := "1234567890",
    password := "Secret1!" }

/-- A refresh token that expires at time 100. -/
def revokedToken : RefreshToken := { userId := 1, exp := 100, jti := "jti-1" }

/-- A store with two image galleries of user 1; gallery 1 holds images 1
and 2, gallery 2 holds image 3. -/
def deleteDb : DB :=
  { imageGalleries := [{ id := 1, userId := 1, galleryName := "beachtrip" },
                       { id := 2, userId := 1, galleryName := "citytrips" }],
    images := [{ id := 1, imageGalleryId := 1, name := "a" },
               { id := 2, imageGalleryId := 1, name := "b" },
               { id := 3, imageGalleryId := 2, name := "c" }],
    nextImageGalleryId := 3, nextImageId := 4 }

/-- The matching filesystem: both gallery directories, and one stored file
inside `beachtrip`. -/
def deleteFs : FS :=
  { dirs := [imageGalleryPath "alicepics" "beachtrip",
             imageGalleryPath "alicepics" "citytrips"],
    files := [imageGalleryPath "alicepics" "beachtrip" ++ ["a.jpg"]] }

/-- A store with the single image gallery `beachtrip` of user 1. -/
def renameDb : DB :=
  { imageGalleries := [{ id := 1, userId := 1, galleryName := "beachtrip" }],
    nextImageGalleryId := 2 }

/-- Its filesystem: the gallery directory and one stored file inside. -/
def renameFs : FS :=
  { dirs := [imageGalleryPath "alicepics" "beachtrip"],
    files := [imageGalleryPath "alicepics" "beachtrip" ++ ["a.jpg"]] }

/-- The store after renaming the gallery to `cityscapes`. -/
def renameDb2 : DB :=
  { imageGalleries := [{ id := 1, userId := 1, galleryName := "cityscapes" }],
    nextImageGalleryId := 2 }

/-- The filesystem after that rename. -/
def renameFs2 : FS :=
  { dirs := [imageGalleryPath "alicepics" "cityscapes"],
    files := [imageGalleryPath "alicepics" "cityscapes" ++ ["a.jpg"]] }

/-! ## Theorems -/

/-- C10: the image batch-size validator inspects only the first file of the
batch — validation of `f :: rest` succeeds iff `f` is within the 2MB cap,
independently of `rest`, and fails with the max-size message iff `f`
exceeds the cap. -/
theorem image_size_cap_checks_only_first_file (f : UploadFile)
    (rest : List UploadFile) :
    (ImageCreateSerializer.validate_image (f :: rest) = .ok (some (f :: rest))
        ↔ f.size ≤ maxSizeImage)
  ∧ (ImageCreateSerializer.validate_image (f :: rest) = .error msgImageMaxSize
        ↔ maxSizeImage < f.size) := by
  by_cases h : f.size > maxSizeImage
  · simp only [ImageCreateSerializer.validate_image, if_pos h]
    constructor
    · simp
      omega
    · simp
      omega
  · simp only [ImageCreateSerializer.validate_image, if_neg h]
    constructor
    · simp
      omega
    · simp
      omega

/-- C2 (failing evaluation): uploading the two-file batch
`[a.jpg, b.png]` as user `alicepics` into gallery `beachtrip` stores, for
each file, the Python `str()` of the *whole list* of generated names —
bracketed, quoted, containing both extensions — so no stored name is a
single FILENAME_FORMAT filename ending in its own extension; the video
serializer stores the concatenation of the whole batch's names. -/
theorem image_upload_stores_str_of_name_list :
    imageCreateStoredNames "alicepics" "beachtrip"
      [⟨"a.jpg", 100⟩, ⟨"b.png", 200⟩]
      [⟨1, 2, 2023, 3, 4, 5, 6⟩, ⟨1, 2, 2023, 3, 4, 5, 7⟩]
    = ["[\x27alicepics-beachtrip-1-2-2023-3-4-5-6.jpg\x27, \x27alicepics-beachtrip-1-2-2023-3-4-5-6.png\x27]",
       "[\x27alicepics-beachtrip-1-2-2023-3-4-5-7.jpg\x27, \x27alicepics-beachtrip-1-2-2023-3-4-5-7.png\x27]"]
  ∧ (imageCreateStoredNames "alicepics" "beachtrip"
      [⟨"a.jpg", 100⟩, ⟨"b.png", 200⟩]
      [⟨1, 2, 2023, 3, 4, 5, 6⟩, ⟨1, 2, 2023, 3, 4, 5, 7⟩]).all
      (fun n => !(".jpg".toList.isSuffixOf n.toList
                  || ".png".toList.isSuffixOf n.toList)) = true
  ∧ videoCreateStoredNames "alicepics" "roadtrips"
      [⟨"x.mp4", 100⟩, ⟨"y.mp4", 200⟩]
      [⟨1, 2, 2023, 3, 4, 5, 6⟩, ⟨1, 2, 2023, 3, 4, 5, 7⟩]
    = ["alicepics-roadtrips-1-2-2023-3-4-5-6.mp4alicepics-roadtrips-1-2-2023-3-4-5-6.mp4",
       "alicepics-roadtrips-1-2-2023-3-4-5-7.mp4alicepics-roadtrips-1-2-2023-3-4-5-7.mp4"] := by
  refine ⟨?_, ?_, ?_⟩ <;> decide

/-- C1 (counterexample): user 2 owns no video gallery at all, yet creating a
video gallery named `alphagal` fails with the `exists` validation error
because user 1 owns one of that name — the video-gallery create check is
not scoped to the authenticated owner. -/
theorem video_gallery_create_name_check_not_per_owner :
    (videoGalleryCreateView
        { videoGalleries := [{ id := 1, userId := 1, galleryName := "alphagal" }] }
        {} 2 "bobuser" "alphagal").1 = .error msgVideoGalleryNameExists
  ∧ ({ videoGalleries := [{ id := 1, userId := 1, galleryName := "alphagal" }] } : DB).videoGalleries.any
      (fun g => g.userId == 2 && g.galleryName == "alphagal") = false := by
  refine ⟨?_, ?_⟩ <;> decide

/-- C1 (amended): the `exists` check is scoped per owner for image-gallery
create, image-gallery rename and video-gallery rename, but the
video-gallery *create* validator errors iff any user — regardless of the
requester — owns a video gallery with the requested name. -/
theorem gallery_name_uniqueness_scope (db : DB) (userId : Nat) (v : String) :
    (ImageGalleryCreateSerializer.validate_gallery_name db userId v
        = .error msgGalleryNameExists
      ↔ db.imageGalleries.any
          (fun g => g.userId == userId && g.galleryName == v) = true)
  ∧ (ImageGalleryUpdateSerializer.validate_gallery_name db userId v
        = .error msgGalleryNameExists
      ↔ db.imageGalleries.any
          (fun g => g.userId == userId && g.galleryName == v) = true)
  ∧ (VideoGalleryUpdateSerializer.validate_gallery_name db userId v
        = .error msgVideoGalleryNameExistsWhileUpdating
      ↔ db.videoGalleries.any
          (fun g => g.userId == userId && g.galleryName == v) = true)
  ∧ (VideoGalleryCreateSerializer.validate_gallery_name db v
        = .error msgVideoGalleryNameExists
      ↔ db.videoGalleries.any (fun g => g.galleryName == v) = true) := by
  refine ⟨?_, ?_, ?_, ?_⟩
  · by_cases h : db.imageGalleries.any
        (fun g => g.userId == userId && g.galleryName == v)
    · simp [ImageGalleryCreateSerializer.validate_gallery_name, h]
    · simp [ImageGalleryCreateSerializer.validate_gallery_name, h]
  · by_cases h : db.imageGalleries.any
        (fun g => g.userId == userId && g.galleryName == v)
    · simp [ImageGalleryUpdateSerializer.validate_gallery_name, h]
    · simp [ImageGalleryUpdateSerializer.validate_gallery_name, h]
  · by_cases h : db.videoGalleries.any
        (fun g => g.userId == userId && g.galleryName == v)
    · simp [VideoGalleryUpdateSerializer.validate_gallery_name, h]
    · simp [VideoGalleryUpdateSerializer.validate_gallery_name, h]
  · by_cases h : db.videoGalleries.any (fun g => g.galleryName == v)
    · simp [VideoGalleryCreateSerializer.validate_gallery_name, h]
    · simp [VideoGalleryCreateSerializer.validate_gallery_name, h]

/-- C3: if the per-file checks pass but existing items plus the batch exceed
the ceiling of 10, the upload request (image or video alike) fails with the
max-limit validation error and the database is returned unchanged — zero
new media rows. -/
theorem upload_over_item_ceiling_rejected_all_or_nothing
    (db : DB) (uid igid vgid : Nat) (username : String)
    (ifiles vfiles : List UploadFile) (times : List Timestamp)
    (ig : ImageGallery) (vg : VideoGallery)
    (h_igid : igid ≠ 0) (h_vgid : vgid ≠ 0)
    (h_ig : db.imageGalleries.find? (fun g => g.id == igid && g.userId == uid)
        = some ig)
    (h_vg : db.videoGalleries.find? (fun g => g.id == vgid && g.userId == uid)
        = some vg)
    (h_isz : ImageCreateSerializer.validate_image ifiles = .ok (some ifiles))
    (h_vsz : VideoCreateSerializer.validate_video vfiles = .ok vfiles)
    (h_icount : ifiles.length + countImages db igid > maxLimit)
    (h_vcount : vfiles.length + countVideos db vgid > maxLimit) :
    imageUploadView db uid username igid ifiles times
      = (.error msgImageMaxLimit, db)
  ∧ videoUploadView db uid username vgid vfiles times
      = (.error msgVideoMaxLimit, db) := by
  have hig_id : ig.id = igid := by
    have h := List.find?_some h_ig
    simp only [Bool.and_eq_true, beq_iff_eq] at h
    exact h.1
  have hvg_id : vg.id = vgid := by
    have h := List.find?_some h_vg
    simp only [Bool.and_eq_true, beq_iff_eq] at h
    exact h.1
  have hival : ImageCreateSerializer.validate db uid igid ifiles
      = .error msgImageMaxLimit := by
    unfold ImageCreateSerializer.validate
    rw [if_pos h_igid]
    simp only [h_ig]
    rw [if_pos (by rw [hig_id]; exact h_icount)]
  have hvval : VideoCreateSerializer.validate db uid vgid vfiles
      = .error msgVideoMaxLimit := by
    unfold VideoCreateSerializer.validate
    rw [if_pos h_vgid]
    simp only [h_vg]
    rw [if_pos (by rw [hvg_id]; exact h_vcount)]
  constructor
  · unfold imageUploadView
    simp only [h_isz, hival]
  · unfold videoUploadView
    simp only [h_vsz, hvval]

/-- C3 (witness): uploading 7 small images into a gallery that already holds
4 fails with the max-limit error and leaves the store untouched; same for
videos. -/
theorem upload_over_item_ceiling_witness :
    (1 : Nat) ≠ 0
  ∧ sevenImages.length + countImages overLimitDb 1 > maxLimit
  ∧ imageUploadView overLimitDb 1 "alicepics" 1 sevenImages []
      = (.error msgImageMaxLimit, overLimitDb)
  ∧ videoUploadView overLimitDb 1 "alicepics" 1 sevenVideos []
      = (.error msgVideoMaxLimit, overLimitDb) := by
  refine ⟨by decide, by decide, ?_, ?_⟩
  · exact (upload_over_item_ceiling_rejected_all_or_nothing overLimitDb 1 1 1
      "alicepics" sevenImages sevenVideos []
      { id := 1, userId := 1, galleryName := "beachtrip" }
      { id := 1, userId := 1, galleryName := "roadtrips" }
      (by decide) (by decide) (by decide) (by decide) (by decide) (by decide)
      (by decide) (by decide)).1
  · exact (upload_over_item_ceiling_rejected_all_or_nothing overLimitDb 1 1 1
      "alicepics" sevenImages sevenVideos []
      { id := 1, userId := 1, galleryName := "beachtrip" }
      { id := 1, userId := 1, galleryName := "roadtrips" }
      (by decide) (by decide) (by decide) (by decide) (by decide) (by decide)
      (by decide) (by decide)).2

/-- C6: when the gallery directory already exists, the filesystem step of
gallery creation fails *after* the database insert, and the new gallery row
is not rolled back — it persists in the returned database state while the
operation surfaces the FileExistsError (image and video galleries alike). -/
theorem gallery_create_db_row_persists_on_makedirs_failure
    (db : DB) (fs : FS) (uid : Nat) (username iname vname : String)
    (h_ilen : galleryNameLengthOk iname = true)
    (h_ival : db.imageGalleries.any
        (fun g => g.userId == uid && g.galleryName == iname) = false)
    (h_idir : fs.dirs.contains (imageGalleryPath username iname) = true)
    (h_vlen : galleryNameLengthOk vname = true)
    (h_vval : db.videoGalleries.any (fun g => g.galleryName == vname) = false)
    (h_vdir : fs.dirs.contains (videoGalleryPath username vname) = true) :
    imageGalleryCreateView db fs uid username iname =
      (.error "FileExistsError",
       { db with
         imageGalleries := (db.imageGalleries ++
           [{ id := db.nextImageGalleryId, userId := uid, galleryName := iname }]),
         nextImageGalleryId := db.nextImageGalleryId + 1 }, fs)
  ∧ videoGalleryCreateView db fs uid username vname =
      (.error "FileExistsError",
       { db with
         videoGalleries := (db.videoGalleries ++
           [{ id := db.nextVideoGalleryId, userId := uid, galleryName := vname }]),
         nextVideoGalleryId := db.nextVideoGalleryId + 1 }, fs) := by
  have h_idir' : imageGalleryPath username iname ∈ fs.dirs := by
    simpa using h_idir
  have h_vdir' : videoGalleryPath username vname ∈ fs.dirs := by
    simpa using h_vdir
  constructor
  · simp [imageGalleryCreateView, ImageGalleryCreateSerializer.validate_gallery_name,
      ImageGalleryCreateSerializer.create, makedirs, h_ilen, h_ival, h_idir']
  · simp [videoGalleryCreateView, VideoGalleryCreateSerializer.validate_gallery_name,
      VideoGalleryCreateSerializer.create, makedirs, h_vlen, h_vval, h_vdir']

/-- C6 (witness): with `media/alicepics/image/beachtrip` (and the video
counterpart) already on disk and no matching rows, creation errors but the
returned database contains the new row. -/
theorem gallery_create_not_rolled_back_witness :
    galleryNameLengthOk "beachtrip" = true
  ∧ bothDirsFs.dirs.contains (imageGalleryPath "alicepics" "beachtrip") = true
  ∧ imageGalleryCreateView {} bothDirsFs 1 "alicepics" "beachtrip" =
      (.error "FileExistsError",
       { ({} : DB) with
         imageGalleries := (({} : DB).imageGalleries ++
           [{ id := ({} : DB).nextImageGalleryId, userId := 1,
              galleryName := "beachtrip" }]),
         nextImageGalleryId := ({} : DB).nextImageGalleryId + 1 }, bothDirsFs)
  ∧ videoGalleryCreateView {} bothDirsFs 1 "alicepics" "roadtrips" =
      (.error "FileExistsError",
       { ({} : DB) with
         videoGalleries := (({} : DB).videoGalleries ++
           [{ id := ({} : DB).nextVideoGalleryId, userId := 1,
              galleryName := "roadtrips" }]),
         nextVideoGalleryId := ({} : DB).nextVideoGalleryId + 1 }, bothDirsFs) := by
  refine ⟨by decide, by decide, ?_, ?_⟩
  · exact (gallery_create_db_row_persists_on_makedirs_failure {} bothDirsFs 1
      "alicepics" "beachtrip" "roadtrips" (by decide) (by decide) (by decide)
      (by decide) (by decide) (by decide)).1
  · exact (gallery_create_db_row_persists_on_makedirs_failure {} bothDirsFs 1
      "alicepics" "beachtrip" "roadtrips" (by decide) (by decide) (by decide)
      (by decide) (by decide) (by decide)).2

/-- C9: once the fields pass format validation, every authentication failure
is the single `Invalid Credentials` error: a signin with a non-existent
username and one with an existing username but wrong password produce
identical outcomes. -/
theorem signin_failure_undifferentiated
    (users : List User) (u1 p1 u2 p2 : String)
    (hf1 : SigninSerializer.fieldsValid u1 p1 = true)
    (hf2 : SigninSerializer.fieldsValid u2 p2 = true)
    (h_no_u1 : ∀ u ∈ users, u.username ≠ u1)
    (h_u2_exists : ∃ u ∈ users, u.username = u2)
    (h_u2_wrong_pw : ∀ u ∈ users, u.username = u2 →
        check_password p2 u.password = false) :
    signinValidation users u1 p1 = signinValidation users u2 p2
  ∧ signinValidation users u1 p1 = .error msgInvalidCredentials := by
  have ha1 : authenticate users u1 p1 = none := by
    unfold authenticate
    apply List.find?_eq_none.mpr
    intro u hu hp
    rw [Bool.and_eq_true] at hp
    exact h_no_u1 u hu (by simpa using hp.1)
  have ha2 : authenticate users u2 p2 = none := by
    unfold authenticate
    apply List.find?_eq_none.mpr
    intro u hu hp
    rw [Bool.and_eq_true] at hp
    have hname : u.username = u2 := by simpa using hp.1
    have hfalse := h_u2_wrong_pw u hu hname
    rw [hp.2] at hfalse
    exact Bool.noConfusion hfalse
  unfold signinValidation SigninSerializer.validate
  rw [if_pos hf1, if_pos hf2, ha1, ha2]
  exact ⟨rfl, rfl⟩

/-- C9 (witness): against a store holding only `alice@123`, signing in as
the unknown `nobody@99` and as `alice@123` with a wrong password yield the
same `Invalid Credentials` outcome. -/
theorem signin_failure_undifferentiated_witness :
    SigninSerializer.fieldsValid "nobody@99" "Wrongpw1!" = true
  ∧ (∀ u ∈ signinUsers, u.username ≠ "nobody@99")
  ∧ (∃ u ∈ signinUsers, u.username = "alice@123")
  ∧ (∀ u ∈ signinUsers, u.username = "alice@123" →
        check_password "Wrongpw1!" u.password = false)
  ∧ (signinValidation signinUsers "nobody@99" "Wrongpw1!"
        = signinValidation signinUsers "alice@123" "Wrongpw1!"
     ∧ signinValidation signinUsers "nobody@99" "Wrongpw1!"
        = .error msgInvalidCredentials) :=
  ⟨by decide, by decide, by decide, by decide,
   signin_failure_undifferentiated signinUsers "nobody@99" "Wrongpw1!"
     "alice@123" "Wrongpw1!" (by decide) (by decide) (by decide) (by decide)
     (by decide)⟩

/-- C4 (counterexample): a well-formed signup payload re-using the taken
username `alice@123` passes validation and then dies with an uncaught
FileExistsError from `os.makedirs` — not with a structured
"already exists" validation error; no account is created. -/
theorem signup_duplicate_username_uncaught_error :
    (signupView dupUserDb dupUserFs dupSignupData).1
      = SignupOutcome.fileExistsError
  ∧ (signupView dupUserDb dupUserFs dupSignupData).1
      ≠ SignupOutcome.validationError
  ∧ (signupView dupUserDb dupUserFs dupSignupData).2.1 = dupUserDb := by
  refine ⟨by decide, by decide, by decide⟩

/-- C4 (amended): signup with an already-taken username and otherwise valid
fields does fail and creates no account, but the failure is an uncaught
exception (FileExistsError from the directory step, or IntegrityError from
the unique constraint at save) rather than a structured validation error. -/
theorem signup_duplicate_username_fails_uncaught
    (db : DB) (fs : FS) (d : SignupData)
    (hf : SignupSerializer.fieldsValid d = true)
    (hdup : db.users.any (fun u => u.username == d.username) = true) :
    ((signupView db fs d).1 = SignupOutcome.fileExistsError
      ∨ (signupView db fs d).1 = SignupOutcome.integrityError)
  ∧ (signupView db fs d).2.1.users = db.users := by
  unfold signupView SignupSerializer.create
  rw [if_pos hf]
  by_cases hd : ["media", d.username] ∈ fs.dirs
  · simp [hd]
  · simp [hd, hdup]

/-- C4 (witness of the amended claim): the concrete duplicate signup of
`alice@123` fails without touching the user table. -/
theorem signup_duplicate_username_fails_witness :
    SignupSerializer.fieldsValid dupSignupData = true
  ∧ dupUserDb.users.any (fun u => u.username == dupSignupData.username) = true
  ∧ (((signupView dupUserDb dupUserFs dupSignupData).1
        = SignupOutcome.fileExistsError
      ∨ (signupView dupUserDb dupUserFs dupSignupData).1
        = SignupOutcome.integrityError)
     ∧ (signupView dupUserDb dupUserFs dupSignupData).2.1.users
        = dupUserDb.users) :=
  ⟨by decide, by decide,
   signup_duplicate_username_fails_uncaught dupUserDb dupUserFs dupSignupData
     (by decide) (by decide)⟩

/-- Sign-out never removes entries from the denylist: membership is
preserved by any further sign-out request. -/
theorem signOut_blacklist_monotone (bl : List String) (t : RefreshToken)
    (now : Nat) (x : String) (h : x ∈ bl) : x ∈ (signOutView bl t now).2 := by
  unfold signOutView SignOutSerializer.validate SignOutSerializer.create
  by_cases h1 : t.exp ≤ now
  · simp [h1, h]
  · by_cases h2 : t.jti ∈ bl
    · simp [h1, h2, h]
    · simp [h1, h2, h]

/-- Denylist membership survives any sequence of further sign-out
requests. -/
theorem mem_applySignOuts (x : String) (ops : List (RefreshToken × Nat)) :
    ∀ bl, x ∈ bl → x ∈ applySignOuts bl ops := by
  induction ops with
  | nil => intro bl h; simpa [applySignOuts] using h
  | cons op rest ih =>
    intro bl h
    obtain ⟨t, n⟩ := op
    simp only [applySignOuts]
    exact ih _ (signOut_blacklist_monotone bl t n x h)

/-- C5: once a sign-out has succeeded for a refresh token, every later
refresh attempt with that token fails with the blacklisted error — at any
time, in particular before the token's nominal expiry, and whatever further
sign-outs happen in between. -/
theorem revoked_refresh_token_never_refreshes
    (bl : List String) (t : RefreshToken) (now0 : Nat)
    (ops : List (RefreshToken × Nat))
    (h : (signOutView bl t now0).1 = .ok ()) :
    ∀ now, tokenRefreshView (applySignOuts (signOutView bl t now0).2 ops) t now
      = .error "Token is blacklisted" := by
  intro now
  have hmem : t.jti ∈ (signOutView bl t now0).2 := by
    unfold signOutView SignOutSerializer.validate SignOutSerializer.create at h ⊢
    by_cases h1 : t.exp ≤ now0
    · simp [h1] at h
    · by_cases h2 : t.jti ∈ bl
      · simp [h1, h2] at h
      · simp [h1, h2]
  have hmem2 : t.jti ∈ applySignOuts (signOutView bl t now0).2 ops :=
    mem_applySignOuts _ _ _ hmem
  unfold tokenRefreshView
  simp [hmem2]

/-- C5 (witness): sign out the token at time 0, then a refresh at time 50 —
before the expiry 100 — is rejected as blacklisted. -/
theorem revoked_refresh_token_witness :
    (signOutView [] revokedToken 0).1 = .ok ()
  ∧ 50 < revokedToken.exp
  ∧ tokenRefreshView (applySignOuts (signOutView [] revokedToken 0).2 [])
      revokedToken 50 = .error "Token is blacklisted" :=
  ⟨by decide, by decide,
   revoked_refresh_token_never_refreshes [] revokedToken 0 [] (by decide) 50⟩

/-- A fetch of an image id that no row carries is an Http404, whoever
asks. -/
theorem imageRetrieveView_404_of_no_row (db : DB) (rid iid : Nat)
    (h : ∀ j ∈ db.images, j.id ≠ iid) :
    imageRetrieveView db rid iid = .error "Http404" := by
  unfold imageRetrieveView
  have hnone : db.images.find? (fun i => i.id == iid &&
      db.imageGalleries.any
        (fun g2 => g2.id == i.imageGalleryId && g2.userId == rid)) = none := by
    apply List.find?_eq_none.mpr
    intro j hj hp
    rw [Bool.and_eq_true] at hp
    exact h j hj (by simpa using hp.1)
  rw [hnone]

/-- C7: deleting an image gallery succeeds, CASCADE-deletes every child
image row (so any subsequent retrieve of a former child id 404s for every
requester), removes the whole backing directory tree when it exists, and
when the directory is already absent it proceeds silently, leaves the
filesystem untouched and still removes the rows. -/
theorem gallery_delete_cascades_and_removes_tree
    (db : DB) (fs : FS) (userId : Nat) (username : String) (galleryId : Nat)
    (g : ImageGallery)
    (hfind : db.imageGalleries.find?
        (fun g2 => g2.id == galleryId && g2.userId == userId) = some g)
    (hids : ∀ i1 ∈ db.images, ∀ i2 ∈ db.images, i1.id = i2.id → i1 = i2) :
    (imageGalleryDestroyView db fs userId username galleryId).1 = .ok ()
  ∧ (∀ i ∈ db.images, i.imageGalleryId = g.id → ∀ requesterId,
       imageRetrieveView
         (imageGalleryDestroyView db fs userId username galleryId).2.1
         requesterId i.id = .error "Http404")
  ∧ (∀ g2 ∈ (imageGalleryDestroyView db fs userId username galleryId).2.1.imageGalleries,
       g2.id ≠ g.id)
  ∧ (∀ i ∈ (imageGalleryDestroyView db fs userId username galleryId).2.1.images,
       i.imageGalleryId ≠ g.id)
  ∧ (fs.dirs.contains (imageGalleryPath username g.galleryName) = true →
       (∀ p ∈ (imageGalleryDestroyView db fs userId username galleryId).2.2.dirs,
          (imageGalleryPath username g.galleryName).isPrefixOf p = false)
       ∧ (∀ p ∈ (imageGalleryDestroyView db fs userId username galleryId).2.2.files,
          (imageGalleryPath username g.galleryName).isPrefixOf p = false))
  ∧ (fs.dirs.contains (imageGalleryPath username g.galleryName) = false →
       (imageGalleryDestroyView db fs userId username galleryId).2.2 = fs) := by
  have hkey : imageGalleryDestroyView db fs userId username galleryId =
      (.ok (),
       { db with
         imageGalleries := db.imageGalleries.filter (fun g2 => g2.id != g.id),
         images := db.images.filter (fun i => i.imageGalleryId != g.id) },
       if fs.dirs.contains (imageGalleryPath username g.galleryName) then
         rmtree fs (imageGalleryPath username g.galleryName)
       else fs) := by
    unfold imageGalleryDestroyView
    rw [hfind]
  refine ⟨?_, ?_, ?_, ?_, ?_, ?_⟩
  · rw [hkey]
  · intro i hi higid requesterId
    rw [hkey]
    apply imageRetrieveView_404_of_no_row
    intro j hj
    have hj' := List.mem_filter.mp hj
    intro hjid
    have heq : i = j := hids i hi j hj'.1 hjid.symm
    have hne : (j.imageGalleryId != g.id) = true := hj'.2
    rw [bne_iff_ne] at hne
    exact hne (by rw [← heq]; exact higid)
  · intro g2 hg2
    rw [hkey] at hg2
    have hg2' := List.mem_filter.mp hg2
    have := hg2'.2
    rwa [bne_iff_ne] at this
  · intro i hi
    rw [hkey] at hi
    have hi' := List.mem_filter.mp hi
    have := hi'.2
    rwa [bne_iff_ne] at this
  · intro hc
    rw [hkey]
    rw [if_pos hc]
    constructor
    · intro p hp
      have hp' := List.mem_filter.mp hp
      simpa using hp'.2
    · intro p hp
      have hp' := List.mem_filter.mp hp
      simpa using hp'.2
  · intro hc
    rw [hkey]
    rw [if_neg (by simpa using hc)]

/-- C7 (witness): deleting gallery 1 of user 1 removes images 1 and 2 and
the whole `media/alicepics/image/beachtrip` tree; fetches of the former
children 404. -/
theorem gallery_delete_witness :
    deleteDb.imageGalleries.find? (fun g2 => g2.id == 1 && g2.userId == 1)
      = some { id := 1, userId := 1, galleryName := "beachtrip" }
  ∧ (∀ i1 ∈ deleteDb.images, ∀ i2 ∈ deleteDb.images, i1.id = i2.id → i1 = i2)
  ∧ ((imageGalleryDestroyView deleteDb deleteFs 1 "alicepics" 1).1 = .ok ()
  ∧ (∀ i ∈ deleteDb.images, i.imageGalleryId = 1 → ∀ requesterId,
       imageRetrieveView
         (imageGalleryDestroyView deleteDb deleteFs 1 "alicepics" 1).2.1
         requesterId i.id = .error "Http404")
  ∧ (∀ g2 ∈ (imageGalleryDestroyView deleteDb deleteFs 1 "alicepics" 1).2.1.imageGalleries,
       g2.id ≠ 1)
  ∧ (∀ i ∈ (imageGalleryDestroyView deleteDb deleteFs 1 "alicepics" 1).2.1.images,
       i.imageGalleryId ≠ 1)
  ∧ (deleteFs.dirs.contains (imageGalleryPath "alicepics" "beachtrip") = true →
       (∀ p ∈ (imageGalleryDestroyView deleteDb deleteFs 1 "alicepics" 1).2.2.dirs,
          (imageGalleryPath "alicepics" "beachtrip").isPrefixOf p = false)
     ∧ (∀ p ∈ (imageGalleryDestroyView deleteDb deleteFs 1 "alicepics" 1).2.2.files,
          (imageGalleryPath "alicepics" "beachtrip").isPrefixOf p = false))
  ∧ (deleteFs.dirs.contains (imageGalleryPath "alicepics" "beachtrip") = false →
       (imageGalleryDestroyView deleteDb deleteFs 1 "alicepics" 1).2.2 = deleteFs)) :=
  ⟨by decide, by decide,
   gallery_delete_cascades_and_removes_tree deleteDb deleteFs 1 "alicepics" 1
     { id := 1, userId := 1, galleryName := "beachtrip" } (by decide) (by decide)⟩

/-- `find?` only depends on the predicate's values on the list. -/
theorem find?_congr_pred {α : Type} (p q : α → Bool) (l : List α)
    (h : ∀ a ∈ l, p a = q a) : l.find? p = l.find? q := by
  induction l with
  | nil => rfl
  | cons a t ih =>
    by_cases hq : q a = true
    · rw [List.find?_cons_of_pos t (by rw [h a (List.mem_cons_self a t)]; exact hq),
        List.find?_cons_of_pos t hq]
    · rw [List.find?_cons_of_neg t (by rw [h a (List.mem_cons_self a t)]; exact hq),
        List.find?_cons_of_neg t hq]
      exact ih (fun b hb => h b (List.mem_cons_of_mem a hb))

/-- Renaming a directory to itself is the identity on the renamed source
path. -/
theorem renamePath_self (old new : Path) : renamePath old new old = new := by
  unfold renamePath
  rw [if_pos (by rw [List.isPrefixOf_iff_prefix])]
  rw [List.drop_length, List.append_nil]

/-- Renaming `old → new` and then `new → old` restores any path that was not
already under `new`. -/
theorem renamePath_roundtrip (old new p : Path)
    (h : new.isPrefixOf p = false) :
    renamePath new old (renamePath old new p) = p := by
  unfold renamePath
  by_cases h1 : old.isPrefixOf p = true
  · rw [if_pos h1]
    rw [if_pos (by rw [List.isPrefixOf_iff_prefix]; exact List.prefix_append new _)]
    rw [List.drop_left]
    obtain ⟨t, ht⟩ := List.isPrefixOf_iff_prefix.mp h1
    rw [← ht, List.drop_left]
  · rw [if_neg h1, if_neg (by rw [h]; exact Bool.false_ne_true)]

/-- Rewriting a gallery row's name to the name it already carries is the
identity. -/
theorem imageGallery_set_same_name (a : ImageGallery) (n : String)
    (h : a.galleryName = n) : { a with galleryName := n } = a := by
  cases a
  simp_all

/-- C8: the gallery path mapping is a pure function of (username,
gallery name), so renaming a gallery from A to B and then from B back to A
returns the gallery row to name A and restores the filesystem — every
directory and file path, in particular the gallery's backing directory
path — exactly to its original state. -/
theorem gallery_rename_roundtrip_restores_path
    (db : DB) (fs : FS) (uid : Nat) (username A B : String) (galleryId : Nat)
    (g g1 : ImageGallery) (db2 : DB) (fs2 : FS)
    (hfind : db.imageGalleries.find?
        (fun g2 => g2.id == galleryId && g2.userId == uid) = some g)
    (hgA : g.galleryName = A)
    (hAB : A ≠ B)
    (hrows : ∀ g2 ∈ db.imageGalleries, g2.id = galleryId → g2.galleryName = A)
    (hnoA : ∀ g2 ∈ db.imageGalleries, g2.userId = uid → g2.galleryName = A →
        g2.id = galleryId)
    (hlenA : galleryNameLengthOk A = true)
    (hlenB : galleryNameLengthOk B = true)
    (hnoB : db.imageGalleries.any
        (fun g2 => g2.userId == uid && g2.galleryName == B) = false)
    (hold : fs.dirs.contains (imageGalleryPath username A) = true)
    (hfreshD : ∀ p ∈ fs.dirs,
        (imageGalleryPath username B).isPrefixOf p = false)
    (hfreshF : ∀ p ∈ fs.files,
        (imageGalleryPath username B).isPrefixOf p = false)
    (h1 : imageGalleryUpdateView db fs uid username galleryId B
        = (.ok g1, db2, fs2)) :
    (imageGalleryUpdateView db2 fs2 uid username galleryId A).1 = .ok g
  ∧ (imageGalleryUpdateView db2 fs2 uid username galleryId A).2.1.imageGalleries
      = db.imageGalleries
  ∧ (imageGalleryUpdateView db2 fs2 uid username galleryId A).2.2 = fs := by
  have hid : g.id = galleryId ∧ g.userId = uid := by
    have h := List.find?_some hfind
    simp only [Bool.and_eq_true, beq_iff_eq] at h
    exact h
  have hA1 : imageGalleryUpdateView db fs uid username galleryId B =
      (.ok { g with galleryName := B },
       { db with imageGalleries := (db.imageGalleries.map
           (fun g2 => if g2.id == g.id then { g2 with galleryName := B } else g2)) },
       { dirs := fs.dirs.map
           (renamePath (imageGalleryPath username A) (imageGalleryPath username B)),
         files := fs.files.map
           (renamePath (imageGalleryPath username A) (imageGalleryPath username B)) }) := by
    unfold imageGalleryUpdateView ImageGalleryUpdateSerializer.validate_gallery_name
      ImageGalleryUpdateSerializer.update os_rename
    rw [hfind]
    dsimp only
    rw [hlenB, hnoB, Bool.not_true, if_neg Bool.false_ne_true,
      if_neg Bool.false_ne_true]
    dsimp only
    rw [hgA, if_pos hold]
  have hdb2 : db2 = { db with imageGalleries := (db.imageGalleries.map
      (fun g2 => if g2.id == g.id then { g2 with galleryName := B } else g2)) } :=
    congrArg (fun t => t.2.1) (h1.symm.trans hA1)
  have hfs2 : fs2 =
      { dirs := (fs.dirs.map
          (renamePath (imageGalleryPath username A) (imageGalleryPath username B))),
        files := (fs.files.map
          (renamePath (imageGalleryPath username A) (imageGalleryPath username B))) } :=
    congrArg (fun t => t.2.2) (h1.symm.trans hA1)
  have hfind2 : db2.imageGalleries.find?
      (fun g2 => g2.id == galleryId && g2.userId == uid)
      = some { g with galleryName := B } := by
    rw [hdb2]
    show (db.imageGalleries.map _).find? _ = _
    rw [List.find?_map]
    rw [find?_congr_pred _ (fun g2 => g2.id == galleryId && g2.userId == uid)
      db.imageGalleries ?hcong]
    · rw [hfind]
      simp
    case hcong =>
      intro a _
      by_cases hc : (a.id == g.id) = true
      · simp [Function.comp, hc]
      · simp [Function.comp, hc]
  have hnoB2 : db2.imageGalleries.any
      (fun g2 => g2.userId == uid && g2.galleryName == A) = false := by
    rw [hdb2]
    show (db.imageGalleries.map _).any _ = false
    rw [List.any_map]
    rw [List.any_eq_false]
    intro a ha
    by_cases hc : (a.id == g.id) = true
    · simp only [Function.comp, hc, if_pos]
      simp only [Bool.and_eq_true, beq_iff_eq, not_and]
      intro _
      exact fun hBA => hAB (hBA.symm)
    · simp only [Function.comp, hc, if_neg, Bool.and_eq_true, beq_iff_eq, not_and]
      intro hu hA2
      exact hc (by rw [beq_iff_eq, hnoA a ha hu hA2, hid.1])
  have hmemB : fs2.dirs.contains (imageGalleryPath username B) = true := by
    rw [hfs2]
    show (fs.dirs.map _).contains _ = true
    have hmemA : imageGalleryPath username A ∈ fs.dirs := by simpa using hold
    have : imageGalleryPath username B ∈ fs.dirs.map
        (renamePath (imageGalleryPath username A) (imageGalleryPath username B)) :=
      List.mem_map.mpr ⟨imageGalleryPath username A, hmemA, renamePath_self _ _⟩
    simpa using this
  have hA2 : imageGalleryUpdateView db2 fs2 uid username galleryId A =
      (.ok { g with galleryName := A },
       { db2 with imageGalleries := (db2.imageGalleries.map
           (fun g2 => if g2.id == g.id then { g2 with galleryName := A } else g2)) },
       { dirs := fs2.dirs.map
           (renamePath (imageGalleryPath username B) (imageGalleryPath username A)),
         files := fs2.files.map
           (renamePath (imageGalleryPath username B) (imageGalleryPath username A)) }) := by
    unfold imageGalleryUpdateView ImageGalleryUpdateSerializer.validate_gallery_name
      ImageGalleryUpdateSerializer.update os_rename
    rw [hfind2]
    dsimp only
    rw [hlenA, hnoB2, Bool.not_true, if_neg Bool.false_ne_true,
      if_neg Bool.false_ne_true]
    dsimp only
    rw [if_pos hmemB]
  refine ⟨?_, ?_, ?_⟩
  · rw [hA2]
    exact congrArg Except.ok (imageGallery_set_same_name g A hgA)
  · rw [hA2]
    show (db2.imageGalleries.map _) = db.imageGalleries
    rw [hdb2]
    show ((db.imageGalleries.map _).map _) = db.imageGalleries
    rw [List.map_map]
    rw [List.map_congr_left (g := id) ?hpt, List.map_id]
    case hpt =>
      intro a ha
      by_cases hc : (a.id == g.id) = true
      · simp only [Function.comp, hc, if_pos, id]
        exact imageGallery_set_same_name a A
          (hrows a ha (by rw [← hid.1]; exact (beq_iff_eq ..).mp hc))
      · simp only [Function.comp, id]
        rw [if_neg hc, if_neg hc]
  · rw [hA2, hfs2]
    dsimp only
    have hD : ((fs.dirs.map
          (renamePath (imageGalleryPath username A) (imageGalleryPath username B))).map
        (renamePath (imageGalleryPath username B) (imageGalleryPath username A)))
        = fs.dirs := by
      rw [List.map_map]
      exact (List.map_congr_left
        (fun p hp => renamePath_roundtrip _ _ p (hfreshD p hp))).trans
        (List.map_id _)
    have hF : ((fs.files.map
          (renamePath (imageGalleryPath username A) (imageGalleryPath username B))).map
        (renamePath (imageGalleryPath username B) (imageGalleryPath username A)))
        = fs.files := by
      rw [List.map_map]
      exact (List.map_congr_left
        (fun p hp => renamePath_roundtrip _ _ p (hfreshF p hp))).trans
        (List.map_id _)
    rw [hD, hF]

/-- C8 (witness): renaming `beachtrip` to `cityscapes` and back restores the
gallery row and the whole filesystem — in particular the backing directory
path — exactly. -/
theorem gallery_rename_roundtrip_witness :
    renameDb.imageGalleries.find? (fun g2 => g2.id == 1 && g2.userId == 1)
      = some { id := 1, userId := 1, galleryName := "beachtrip" }
  ∧ imageGalleryUpdateView renameDb renameFs 1 "alicepics" 1 "cityscapes"
      = (.ok { id := 1, userId := 1, galleryName := "cityscapes" },
         renameDb2, renameFs2)
  ∧ ((imageGalleryUpdateView renameDb2 renameFs2 1 "alicepics" 1 "beachtrip").1
      = .ok { id := 1, userId := 1, galleryName := "beachtrip" }
  ∧ (imageGalleryUpdateView renameDb2 renameFs2 1 "alicepics" 1 "beachtrip").2.1.imageGalleries
      = renameDb.imageGalleries
  ∧ (imageGalleryUpdateView renameDb2 renameFs2 1 "alicepics" 1 "beachtrip").2.2
      = renameFs) :=
  ⟨by decide, by decide,
   gallery_rename_roundtrip_restores_path renameDb renameFs 1 "alicepics"
     "beachtrip" "cityscapes" 1
     { id := 1, userId := 1, galleryName := "beachtrip" }
     { id := 1, userId := 1, galleryName := "cityscapes" }
     renameDb2 renameFs2
     (by decide) (by decide) (by decide) (by decide) (by decide) (by decide)
     (by decide) (by decide) (by decide) (by decide) (by decide) (by decide)⟩

end GalleryProject
